import Mathlib

/-!
Verification development for the Signoz-demo service
(`src/app.js`, `src/logger.js`, `src/tracing.js`).

The embedding models:
* JavaScript request-body values (`JSVal`) with the truthiness and numeric
  coercion rules the validation code relies on;
* the structured log events emitted by `src/app.js` (`Event`);
* the request-handling pipeline of `src/app.js`: the request-logging
  middleware (lines 13-48), the route handlers, and the global error
  handler (lines 290-307), together with the Express semantics that the
  `finish` listener registered on the response fires for every finished
  response, including the one sent by the global error handler;
* the Winston console format `prettyLog` and the trace-context-injecting
  format of `src/logger.js`, over JSON-like records.

Identifiers (`uuidv4`) and clock readings (`Date.now()`) are passed in as
parameters, since the code obtains them from its environment.
-/

/-- Model of a JavaScript value as it arrives in a parsed JSON request body:
absent (`undefined`), a number, or a string.  Numbers are modelled as
integers, which covers every value the validation logic of `src/app.js`
distinguishes (the code only tests truthiness, `isNaN`, and `< 0`). -/
inductive JSVal where
  | undef : JSVal
  | num : Int → JSVal
  | str : String → JSVal
deriving DecidableEq, Repr

/-- JavaScript truthiness for the modelled values: `undefined` is falsy,
`0` is falsy, the empty string is falsy, everything else is truthy. -/
def truthy : JSVal → Bool
  | JSVal.undef => false
  | JSVal.num n => n != 0
  | JSVal.str s => s != ""

/-- JavaScript numeric coercion `Number(v)` restricted to the modelled
values, with `none` playing the role of `NaN`.  String parsing is modelled
by integer-literal parsing (`String.toInt?`), which agrees with JavaScript
on every integer-literal string and on non-numeric strings. -/
def jsToNum : JSVal → Option Int
  | JSVal.undef => none
  | JSVal.num n => some n
  | JSVal.str s => s.toInt?

/-- JavaScript `isNaN(v)`: the numeric coercion yields `NaN`. -/
def jsIsNaN (v : JSVal) : Bool := (jsToNum v).isNone

/-- JavaScript `v < 0`: the numeric coercion is compared with `0`;
a `NaN` comparison is `false`. -/
def jsLtZero (v : JSVal) : Bool :=
  match jsToNum v with
  | some n => decide (n < 0)
  | none => false

/-- Log levels used by the service (`logger.debug/info/warn/error`). -/
inductive Level where
  | debug : Level
  | info : Level
  | warn : Level
  | error : Level
deriving DecidableEq, Repr

/-- A structured log event as emitted by `src/app.js`.  Each optional field
models a key of the object literal handed to the logger; `none` means the
call site does not pass that key.  Only the fields the claims mention are
carried (`message` strings are kept verbatim from the source). -/
structure Event where
  level : Level
  event : String
  message : String
  requestId : Option String := none
  method : Option String := none
  path : Option String := none
  statusCode : Option Nat := none
  /-- The `duration` attribute in milliseconds, present only where the
  source passes a ``duration: `...ms` `` key. -/
  duration : Option Int := none
  errorMsg : Option String := none
  errorType : Option String := none
  errors : List String := []
  /-- The `userId` attribute: a request-body value in the `POST /posts`
  events, a freshly drawn UUID string in `USER_CREATED`. -/
  userId : Option JSVal := none
  postId : Option String := none
  username : Option JSVal := none
deriving DecidableEq, Repr

/-- Response bodies produced by the handlers modelled here, one constructor
per object-literal shape in `src/app.js`. -/
inductive Body where
  /-- `{ error }` — e.g. the 404 of `POST /posts`. -/
  | errorBody : String → Body
  /-- `{ errors }` — the 400 of `POST /users` validation. -/
  | errorsBody : List String → Body
  /-- `{ error, type, message }` — the 500 of `GET /simulate-error/:type`. -/
  | simErrorBody : String → String → String → Body
  /-- `{ error, requestId, message }` — the 500 of the global error handler. -/
  | unhandledBody : String → String → String → Body
  /-- `{ id, username, email, age, createdAt }` — the 201 of `POST /users`
  (`createdAt` is a clock reading, carried as a parameter elsewhere). -/
  | userBody : String → JSVal → JSVal → JSVal → Body
  /-- `{ id, userId, title, content, createdAt, likes }` — the 201 of
  `POST /posts`. -/
  | postBody : String → JSVal → JSVal → JSVal → Nat → Body
deriving DecidableEq, Repr

/-- An HTTP response: status code and body. -/
structure Response where
  status : Nat
  body : Body
deriving DecidableEq, Repr

/-- A thrown JavaScript error: constructor name and message (stack text is
irrelevant to the claims and elided). -/
structure Fault where
  name : String
  message : String
deriving DecidableEq, Repr

/-- Outcome of running a route handler (or a body-parsing middleware): the
domain events it logs, and either a response it sent or a fault that
escaped it to the global error handler. -/
abbrev HandlerOutcome := List Event × Except Fault Response

/-- The in-memory `users` / `posts` stores of `src/app.js` (`Map` objects
keyed by UUID strings), modelled as association lists. -/
abbrev Store (α : Type) := List (String × α)

/-- JavaScript `map.has(k)` where `k` is a request-body value: only a
string can match the string keys the code inserts. -/
def storeHas {α : Type} (m : Store α) (k : JSVal) : Bool :=
  match k with
  | JSVal.str s => m.any (fun kv => kv.1 == s)
  | _ => false

/-- A stored user record (`{ id, username, email, age, createdAt }`;
`createdAt` elided as a clock value). -/
structure User where
  id : String
  username : JSVal
  email : JSVal
  age : JSVal
deriving DecidableEq, Repr

/-- A stored post record. -/
structure Post where
  id : String
  userId : JSVal
  title : JSVal
  content : JSVal
  likes : Nat
deriving DecidableEq, Repr

/-- Validation of `POST /users` (`src/app.js` lines 59-62):
`if (!username) errors.push('Username is required');
 if (!email) errors.push('Email is required');
 if (age && (isNaN(age) || age < 0)) errors.push('Invalid age');` -/
def validateUser (username email age : JSVal) : List String :=
  (if !truthy username then ["Username is required"] else []) ++
  (if !truthy email then ["Email is required"] else []) ++
  (if truthy age && (jsIsNaN age || jsLtZero age) then ["Invalid age"] else [])

/-- The `POST /users` handler (`src/app.js` lines 54-98).  `newId` stands
for the `uuidv4()` drawn for a created user.  Returns the events logged,
the outcome, and the updated `users` store.  The `catch` branch is
unreachable (nothing in the `try` body throws) and is not modelled. -/
def createUserHandler (username email age : JSVal) (requestId : String)
    (users : Store User) (newId : String) :
    List Event × Except Fault Response × Store User :=
  let errs := validateUser username email age
  if errs.length > 0 then
    ([{ level := Level.warn, event := "VALIDATION_FAILED",
        message := "⚠️ User creation validation failed",
        requestId := some requestId, errors := errs }],
     Except.ok { status := 400, body := Body.errorsBody errs }, users)
  else
    let user : User := { id := newId, username := username, email := email, age := age }
    ([{ level := Level.info, event := "USER_CREATED",
        message := "👤 New user created successfully",
        requestId := some requestId, userId := some (JSVal.str newId),
        username := some username }],
     Except.ok { status := 201, body := Body.userBody newId username email age },
     users ++ [(newId, user)])

/-- The `POST /posts` handler (`src/app.js` lines 101-145).  `newId` stands
for the `uuidv4()` drawn for a created post.  Returns the events logged,
the outcome, and the updated `posts` store.  The `catch` branch is
unreachable and is not modelled. -/
def createPostHandler (userId title content : JSVal) (requestId : String)
    (users : Store User) (posts : Store Post) (newId : String) :
    List Event × Except Fault Response × Store Post :=
  if !storeHas users userId then
    ([{ level := Level.warn, event := "POST_CREATION_FAILED",
        message := "⚠️ Post creation failed - User not found",
        requestId := some requestId, userId := some userId }],
     Except.ok { status := 404, body := Body.errorBody "User not found" }, posts)
  else
    let post : Post := { id := newId, userId := userId, title := title,
                         content := content, likes := 0 }
    ([{ level := Level.info, event := "POST_CREATED",
        message := "📝 New post created",
        requestId := some requestId, postId := some newId,
        userId := some userId }],
     Except.ok { status := 201,
                 body := Body.postBody newId userId title content 0 },
     posts ++ [(newId, post)])

/-- The fault thrown inside the `switch` of `GET /simulate-error/:type`
(`src/app.js` lines 229-251).  Every branch throws: `reference` dereferences
an undeclared variable, `type` calls `split` on a number, `syntax` `eval`s an
unterminated block, `custom` and the `default` branch throw `Error`s.
Messages are the V8 engine's texts for the first three. -/
def simulatedFault (errorType : String) : Fault :=
  match errorType with
  | "reference" => { name := "ReferenceError",
                     message := "nonExistentVariable is not defined" }
  | "type" => { name := "TypeError", message := "num.split is not a function" }
  | "syntax" => { name := "SyntaxError", message := "Unexpected end of input" }
  | "custom" => { name := "Error", message := "Custom application error" }
  | _ => { name := "Error", message := "Unknown error type" }

/-- The `GET /simulate-error/:type` handler (`src/app.js` lines 218-268).
It logs `ERROR_SIMULATION_STARTED`, runs the always-throwing `switch` inside
`try`, and in `catch` logs `ERROR_SIMULATION_TRIGGERED` at error level and
answers 500 with `{ error: 'Simulated error', type: errorType,
message: error.message }`.  The outcome is always `Except.ok`: the fault
never escapes this handler. -/
def simulateErrorHandler (errorType : String) (requestId : String) :
    HandlerOutcome :=
  let fault := simulatedFault errorType
  ([{ level := Level.info, event := "ERROR_SIMULATION_STARTED",
      message := "🔄 Starting error simulation",
      requestId := some requestId, errorType := some errorType },
    { level := Level.error, event := "ERROR_SIMULATION_TRIGGERED",
      message := "💥 Simulated error occurred",
      requestId := some requestId, errorType := some errorType,
      errorMsg := some fault.message }],
   Except.ok { status := 500,
               body := Body.simErrorBody "Simulated error" errorType
                         fault.message })

/-- An inbound HTTP request as the lifecycle middleware sees it. -/
structure Request where
  method : String
  path : String
deriving DecidableEq, Repr

/-- The request pipeline of `src/app.js`: the request-logging middleware
(lines 13-48) around an arbitrary downstream handler, with the global error
handler (lines 290-307) as the fault boundary.

* On entry the middleware draws `requestId` (a `uuidv4()`, here a
  parameter), records `startTime = Date.now()` (parameter `startTime`), and
  logs `REQUEST_RECEIVED`.
* It registers a `finish` listener on the response which logs
  `REQUEST_COMPLETED` with `duration = Date.now() - startTime` (the finish
  clock is parameter `finishTime`) and the status code of the response that
  finished.  In Express this listener fires once for every response that is
  actually sent — including the 500 sent by the global error handler.
* If the downstream handler sends a response, that response finishes.
* If a fault escapes the downstream handler, the global error handler logs
  `UNHANDLED_ERROR` (no duration attribute) and sends
  `500 { error: 'Internal Server Error', requestId, message }`; that
  response then finishes, firing the same `finish` listener.

The handler receives the request and the `requestId` set on it by the
middleware (`req.requestId`), and yields the domain events it logs plus its
outcome.  Result: the full event stream in emission order, and the response
sent to the client. -/
def handleRequest (requestId : String) (startTime finishTime : Int)
    (req : Request) (handler : Request → String → HandlerOutcome) :
    List Event × Response :=
  let received : Event :=
    { level := Level.info, event := "REQUEST_RECEIVED",
      message := "🌟 New incoming request",
      method := some req.method, path := some req.path,
      requestId := some requestId }
  let completed (resp : Response) : Event :=
    { level := Level.info, event := "REQUEST_COMPLETED",
      message := "✅ Request processed",
      method := some req.method, path := some req.path,
      requestId := some requestId, statusCode := some resp.status,
      duration := some (finishTime - startTime) }
  match handler req requestId with
  | (handlerEvents, Except.ok resp) =>
      (received :: handlerEvents ++ [completed resp], resp)
  | (handlerEvents, Except.error fault) =>
      let unhandled : Event :=
        { level := Level.error, event := "UNHANDLED_ERROR",
          message := "🚨 Unhandled application error",
          requestId := some requestId, errorMsg := some fault.message,
          method := some req.method, path := some req.path }
      let resp : Response :=
        { status := 500,
          body := Body.unhandledBody "Internal Server Error" requestId
                    fault.message }
      (received :: handlerEvents ++ [unhandled, completed resp], resp)

/-- Number of events of a given type in an event stream. -/
def countEvent (t : String) (evs : List Event) : Nat :=
  evs.countP (fun e => e.event == t)

/-- The three lifecycle event types emitted by the middleware and the global
error handler (as opposed to domain events emitted by route handlers). -/
def lifecycleEventTypes : List String :=
  ["REQUEST_RECEIVED", "REQUEST_COMPLETED", "UNHANDLED_ERROR"]

/-- The exclusivity clause of the lifecycle claim, as a decidable check on
an event stream: `REQUEST_COMPLETED` and `UNHANDLED_ERROR` are never both
present. -/
def terminalExclusive (evs : List Event) : Bool :=
  !(evs.any (fun e => e.event == "REQUEST_COMPLETED") &&
    evs.any (fun e => e.event == "UNHANDLED_ERROR"))

/-- A downstream handler that faults without sending a response, as
`express.json()` does on a malformed request body (`src/app.js` line 51:
the parse error escapes to the global error handler; the body-parsing
middleware runs after the logging middleware, so `requestId` is set). -/
def malformedJsonHandler : Request → String → HandlerOutcome :=
  fun _ _ =>
    ([], Except.error { name := "SyntaxError",
                        message := "Unexpected token \x7d in JSON at position 2" })

/-- A JSON-like value as held in a Winston log-info object, for the
`src/logger.js` formats.  String escaping inside `JSON.stringify` is not
modelled (no key or value the service passes needs escaping). -/
inductive JsonVal where
  | str : String → JsonVal
  | num : Int → JsonVal
  | bool : Bool → JsonVal
  | obj : List (String × JsonVal) → JsonVal
  | arr : List JsonVal → JsonVal

mutual
/-- `JSON.stringify(v, null, 2)` at the ambient indentation `ind` (the
indentation accumulated by enclosing objects/arrays). -/
def stringifyVal : JsonVal → String → String
  | JsonVal.str s, _ => "\"" ++ s ++ "\""
  | JsonVal.num n, _ => toString n
  | JsonVal.bool b, _ => if b then "true" else "false"
  | JsonVal.obj [], _ => "{}"
  | JsonVal.obj (kv :: kvs), ind =>
      "\x7b\n" ++ stringifyEntries (kv :: kvs) (ind ++ "  ") ++ "\n" ++ ind ++
        "\x7d"
  | JsonVal.arr [], _ => "[]"
  | JsonVal.arr (v :: vs), ind =>
      "[\n" ++ stringifyItems (v :: vs) (ind ++ "  ") ++ "\n" ++ ind ++ "]"

/-- Object entries of `JSON.stringify(·, null, 2)`, comma-and-newline
separated, each on its own indented line. -/
def stringifyEntries : List (String × JsonVal) → String → String
  | [], _ => ""
  | [(k, v)], ind => ind ++ "\"" ++ k ++ "\": " ++ stringifyVal v ind
  | (k, v) :: kv :: kvs, ind =>
      ind ++ "\"" ++ k ++ "\": " ++ stringifyVal v ind ++ ",\n" ++
        stringifyEntries (kv :: kvs) ind

/-- Array items of `JSON.stringify(·, null, 2)`. -/
def stringifyItems : List JsonVal → String → String
  | [], _ => ""
  | [v], ind => ind ++ stringifyVal v ind
  | v :: w :: vs, ind =>
      ind ++ stringifyVal v ind ++ ",\n" ++ stringifyItems (w :: vs) ind
end

/-- A Winston log-info object as it reaches a format: the four destructured
fields of `prettyLog` (`level`, `message`, `timestamp`, `event`) and the
remaining metadata as an ordered key/value list (`...meta`). -/
structure LogInfo where
  level : String
  message : String
  timestamp : String
  event : String
  meta : List (String × JsonVal)

/-- The keys `prettyLog` destructures out of the metadata before rendering
(`src/logger.js` line 12): `trace_id`, `span_id`, `trace_flags`, `service`,
and the duplicate `timestamp`. -/
def strippedKeys : List String :=
  ["trace_id", "span_id", "trace_flags", "service", "timestamp"]

/-- The metadata that survives the destructuring in `prettyLog`
(`cleanMeta` in `src/logger.js`). -/
def cleanMeta (meta : List (String × JsonVal)) : List (String × JsonVal) :=
  meta.filter (fun kv => !strippedKeys.contains kv.1)

/-- JavaScript `.replace(/\n/g, '\n  ')`: every newline character gains a
two-space indent after it (the regex is global and the pattern is the
single newline character, so replacement is per character). -/
def indentNewlines (s : String) : String :=
  String.mk (s.data.foldr
    (fun c acc => if c = '\n' then '\n' :: ' ' :: ' ' :: acc else c :: acc) [])

/-- The single-line header of the console rendering:
```${timestamp} [${level}] ${event}: ${message}` ``. -/
def consoleHeader (info : LogInfo) : String :=
  info.timestamp ++ " [" ++ info.level ++ "] " ++ info.event ++ ": " ++
    info.message

/-- The `prettyLog` Winston format of `src/logger.js` (lines 11-19): header
line, then — when any metadata survives —
``JSON.stringify(cleanMeta, null, 2).replace(/\n/g, '\n  ')`` prefixed by
`'\n  '`. -/
def prettyLog (info : LogInfo) : String :=
  let clean := cleanMeta info.meta
  let metaString :=
    if clean.isEmpty then ""
    else "\n  " ++ indentNewlines (stringifyVal (JsonVal.obj clean) "")
  consoleHeader info ++ metaString

/-- Modelled from the spec: the console rendering as the claim describes
it — the pretty-printed attributes with the trace fields (`trace_id`,
`span_id`, `trace_flags`) AND the correlation field (`requestId`) removed.
Kept for comparison with `prettyLog`, which is translated from the
source. -/
def claimStrippedKeys : List String :=
  ["trace_id", "span_id", "trace_flags", "requestId"]

/-- Modelled from the spec: `prettyLog` as the claim describes it, filtering
`claimStrippedKeys` instead of the keys the source actually strips. -/
def claimPrettyLog (info : LogInfo) : String :=
  let clean := info.meta.filter (fun kv => !claimStrippedKeys.contains kv.1)
  let metaString :=
    if clean.isEmpty then ""
    else "\n  " ++ indentNewlines (stringifyVal (JsonVal.obj clean) "")
  consoleHeader info ++ metaString

/-- The console transport (`src/logger.js` lines 71-76) renders the record
with `prettyLog`. -/
def consoleSink (info : LogInfo) : String := prettyLog info

/-- The OpenTelemetry transport (`src/logger.js` lines 64-69) receives the
full structured record, nothing stripped. -/
def durableSink (info : LogInfo) : LogInfo := info

/-- The span context exposed by `trace.getActiveSpan().spanContext()`. -/
structure SpanContext where
  traceId : String
  spanId : String
  traceFlags : Nat
deriving DecidableEq, Repr

/-- JavaScript `n.toString(16)` for the non-negative `traceFlags`. -/
def toHexString (n : Nat) : String := String.mk (Nat.toDigits 16 n)

/-- JavaScript property assignment `info[k] = v` on a metadata list:
replaces the value in place if the key exists, otherwise appends. -/
def setKey (m : List (String × JsonVal)) (k : String) (v : JsonVal) :
    List (String × JsonVal) :=
  if m.any (fun kv => kv.1 == k) then
    m.map (fun kv => if kv.1 == k then (k, v) else kv)
  else m ++ [(k, v)]

/-- The trace-context-injecting Winston format of `src/logger.js`
(lines 44-53): if `trace.getActiveSpan()` returns a span (`active`), its
`traceId`, `spanId` and hex `traceFlags` are written onto the info object;
otherwise the info object is returned unchanged. -/
def injectTraceContext (active : Option SpanContext) (info : LogInfo) :
    LogInfo :=
  match active with
  | none => info
  | some sc =>
      { info with
        meta :=
          setKey
            (setKey (setKey info.meta "trace_id" (JsonVal.str sc.traceId))
              "span_id" (JsonVal.str sc.spanId))
            "trace_flags" (JsonVal.str (toHexString sc.traceFlags)) }

/-- Lookup of a metadata key (first match, as for JS properties, whose keys
are unique). -/
def getKey (m : List (String × JsonVal)) (k : String) : Option JsonVal :=
  match m.find? (fun kv => kv.1 == k) with
  | some kv => some kv.2
  | none => none

/-- Result of one `emit` call: what each sink received and whether the call
raised back to the caller. -/
structure EmitResult where
  consoleOutput : Option String
  durableRecord : Option LogInfo
  raised : Bool

/-- Modelled from the spec: the fan-out of one logger call to the two
configured transports.  The dispatch loop itself lives in the `winston`
library, not under `src/`; `src/logger.js` only registers the two
transports (lines 62-77).  Per the spec (§4.2 steps 4-5) the record is
handed to both sinks unconditionally, a durable-sink failure
(`durableFails`) is swallowed rather than propagated, the console sink
still renders the record, and nothing is raised back to the caller. -/
def emitRecord (durableFails : Bool) (info : LogInfo) : EmitResult :=
  { consoleOutput := some (consoleSink info),
    durableRecord := if durableFails then none else some (durableSink info),
    raised := false }

/-- An `if`-guarded singleton is a sublist of that singleton. -/
theorem ite_singleton_sublist (c : Prop) [Decidable c] (x : String) :
    List.Sublist (if c then [x] else []) [x] := by
  split
  · exact List.Sublist.refl _
  · exact List.nil_sublist _

/-- Claim C10: `POST /users` validation accepts an absent age and an age of
`0` (the age check is guarded by truthiness), rejects a truthy age whose
numeric coercion is `NaN` or negative with the message `"Invalid age"`, and
accumulates messages in the fixed order username, email, age. -/
theorem c10_age_validation_and_order (u e a : JSVal)
    (ht : truthy a = true) (hbad : jsIsNaN a = true ∨ jsLtZero a = true) :
    "Invalid age" ∉ validateUser u e JSVal.undef ∧
    "Invalid age" ∉ validateUser u e (JSVal.num 0) ∧
    "Invalid age" ∈ validateUser u e a ∧
    (∀ b : JSVal, List.Sublist (validateUser u e b)
      ["Username is required", "Email is required", "Invalid age"]) := by
  refine ⟨?_, ?_, ?_, ?_⟩
  · simp [validateUser, truthy, jsIsNaN, jsToNum]
  · simp [validateUser, truthy]
  · have hc : (truthy a && (jsIsNaN a || jsLtZero a)) = true := by
      rcases hbad with h | h <;> simp [ht, h]
    simp [validateUser, hc]
  · intro b
    have h1 := ite_singleton_sublist (¬truthy u = true) "Username is required"
    have h2 := ite_singleton_sublist (¬truthy e = true) "Email is required"
    have h3 := ite_singleton_sublist
      ((truthy b && (jsIsNaN b || jsLtZero b)) = true) "Invalid age"
    simpa [validateUser] using
      List.Sublist.append (List.Sublist.append h1 h2) h3

/-- Witness for C10 at `u = e = "a"`, rejected age `-5` (truthy,
negative). -/
theorem c10_age_validation_and_order_witness :
    "Invalid age" ∉ validateUser (JSVal.str "a") (JSVal.str "a") JSVal.undef ∧
    "Invalid age" ∉ validateUser (JSVal.str "a") (JSVal.str "a") (JSVal.num 0) ∧
    "Invalid age" ∈ validateUser (JSVal.str "a") (JSVal.str "a") (JSVal.num (-5)) ∧
    (∀ b : JSVal, List.Sublist (validateUser (JSVal.str "a") (JSVal.str "a") b)
      ["Username is required", "Email is required", "Invalid age"]) :=
  c10_age_validation_and_order (JSVal.str "a") (JSVal.str "a")
    (JSVal.num (-5)) (by decide) (Or.inr (by decide))

/-- Claim C7: a `POST /users` body without a `username` but with a truthy
`email` and an age passing the age check yields exactly one warn-level
`VALIDATION_FAILED` event (no error-level event), a 400 response with body
`{ errors: ["Username is required"] }`, and leaves the `users` store
unchanged. -/
theorem c7_missing_username (email age : JSVal) (requestId newId : String)
    (users : Store User)
    (he : truthy email = true)
    (ha : (truthy age && (jsIsNaN age || jsLtZero age)) = false) :
    createUserHandler JSVal.undef email age requestId users newId =
      ([{ level := Level.warn, event := "VALIDATION_FAILED",
          message := "⚠️ User creation validation failed",
          requestId := some requestId, errors := ["Username is required"] }],
       Except.ok { status := 400,
                   body := Body.errorsBody ["Username is required"] },
       users) := by
  have hv : validateUser JSVal.undef email age = ["Username is required"] := by
    unfold validateUser
    rw [show truthy JSVal.undef = false from rfl, he, ha]
    rfl
  simp [createUserHandler, hv]

/-- Witness for C7 at email `"b@c.com"`, age `25`. -/
theorem c7_missing_username_witness :
    createUserHandler JSVal.undef (JSVal.str "b@c.com") (JSVal.num 25)
        "req-1" [] "uid-1" =
      ([{ level := Level.warn, event := "VALIDATION_FAILED",
          message := "⚠️ User creation validation failed",
          requestId := some "req-1", errors := ["Username is required"] }],
       Except.ok { status := 400,
                   body := Body.errorsBody ["Username is required"] },
       []) :=
  c7_missing_username (JSVal.str "b@c.com") (JSVal.num 25) "req-1" "uid-1" []
    (by decide) (by decide)

/-- Claim C8: a `POST /posts` body whose `userId` is not a key of the
`users` store yields one warn-level `POST_CREATION_FAILED` event, a 404
response with body `{ error: "User not found" }`, and leaves the `posts`
store unchanged. -/
theorem c8_post_user_not_found (userId title content : JSVal)
    (requestId newId : String) (users : Store User) (posts : Store Post)
    (h : storeHas users userId = false) :
    createPostHandler userId title content requestId users posts newId =
      ([{ level := Level.warn, event := "POST_CREATION_FAILED",
          message := "⚠️ Post creation failed - User not found",
          requestId := some requestId, userId := some userId }],
       Except.ok { status := 404, body := Body.errorBody "User not found" },
       posts) := by
  simp [createPostHandler, h]

/-- Witness for C8: unknown `userId` against an empty store. -/
theorem c8_post_user_not_found_witness :
    createPostHandler (JSVal.str "u-404") (JSVal.str "t") (JSVal.str "c")
        "req-2" [] [] "pid-1" =
      ([{ level := Level.warn, event := "POST_CREATION_FAILED",
          message := "⚠️ Post creation failed - User not found",
          requestId := some "req-2", userId := some (JSVal.str "u-404") }],
       Except.ok { status := 404, body := Body.errorBody "User not found" },
       []) :=
  c8_post_user_not_found (JSVal.str "u-404") (JSVal.str "t") (JSVal.str "c")
    "req-2" "pid-1" [] [] (by decide)

/-- Claim C3: `GET /simulate-error/custom` yields a 500 response with body
`{ error: "Simulated error", type: "custom",
message: "Custom application error" }`, and an error-level
`ERROR_SIMULATION_TRIGGERED` event is emitted in the request's event stream
carrying the request's correlation id. -/
theorem c3_simulate_error_custom (requestId : String) (start fin : Int)
    (req : Request) :
    (handleRequest requestId start fin req
        (fun _ rid => simulateErrorHandler "custom" rid)).2 =
      { status := 500,
        body := Body.simErrorBody "Simulated error" "custom"
                  "Custom application error" } ∧
    ∃ ev ∈ (handleRequest requestId start fin req
        (fun _ rid => simulateErrorHandler "custom" rid)).1,
      ev.level = Level.error ∧ ev.event = "ERROR_SIMULATION_TRIGGERED" ∧
      ev.requestId = some requestId := by
  refine ⟨rfl, ?_⟩
  refine ⟨{ level := Level.error, event := "ERROR_SIMULATION_TRIGGERED",
            message := "💥 Simulated error occurred",
            requestId := some requestId, errorType := some "custom",
            errorMsg := some "Custom application error" }, ?_, rfl, rfl, rfl⟩
  show _ ∈ (handleRequest _ _ _ _ _).1
  refine List.mem_cons_of_mem _ (List.mem_append_left _ ?_)
  exact List.mem_cons_of_mem _ (List.mem_cons_self _ _)

/-- Claim C9: for every value of the `:type` parameter, the
`GET /simulate-error/:type` handler catches the fault itself and answers
500 with `{ error: "Simulated error", type, message: fault.message }`; the
outcome is never a fault, so a run of the full pipeline with this handler
emits no `UNHANDLED_ERROR` event. -/
theorem c9_simulate_error_self_contained (t requestId : String)
    (start fin : Int) (req : Request) :
    (simulateErrorHandler t requestId).2 =
      Except.ok { status := 500,
                  body := Body.simErrorBody "Simulated error" t
                            (simulatedFault t).message } ∧
    countEvent "UNHANDLED_ERROR"
      (handleRequest requestId start fin req
        (fun _ rid => simulateErrorHandler t rid)).1 = 0 := by
  refine ⟨rfl, ?_⟩
  simp [handleRequest, simulateErrorHandler, countEvent]

/-- A concrete run of the pipeline in which the downstream handler faults:
`POST /users` with a malformed JSON body, parsed by `express.json()`, whose
`SyntaxError` escapes to the global error handler. -/
def malformedJsonRun : List Event × Response :=
  handleRequest "req-err-1" 100 150 { method := "POST", path := "/users" }
    malformedJsonHandler

/-- Claim C1 counterexample: on a request whose handler faults, the global
error handler emits `UNHANDLED_ERROR` and then sends a 500 response, whose
finishing fires the middleware's `finish` listener — so `REQUEST_COMPLETED`
is emitted as well.  The completion event and the unhandled-fault event are
both emitted for the same request, and two terminal lifecycle events occur
rather than exactly one. -/
theorem c1_counterexample_both_terminal_events :
    terminalExclusive malformedJsonRun.1 = false ∧
    countEvent "REQUEST_COMPLETED" malformedJsonRun.1 = 1 ∧
    countEvent "UNHANDLED_ERROR" malformedJsonRun.1 = 1 := by decide

/-- Helper: a handler that emits no lifecycle-typed events contributes zero
to the count of any lifecycle event type. -/
theorem countP_eq_zero_of_no_lifecycle (hevs : List Event) (t : String)
    (ht : t ∈ lifecycleEventTypes)
    (hd : ∀ ev ∈ hevs, ev.event ∉ lifecycleEventTypes) :
    hevs.countP (fun e => e.event == t) = 0 := by
  apply List.countP_eq_zero.mpr
  intro ev hev
  simp only [beq_iff_eq]
  exact fun hc => hd ev hev (hc ▸ ht)

/-- Claim C1, amended: for every request handed to a handler that emits no
lifecycle-typed events itself (true of every route in `src/app.js`),
exactly one `REQUEST_RECEIVED` and exactly one `REQUEST_COMPLETED` event
are emitted; `UNHANDLED_ERROR` is emitted exactly once when a fault escapes
the handler and never otherwise (so on a fault, two terminal events occur —
the unhandled-fault event and, from the error handler's finished response,
the completion event); all lifecycle events of the request carry the same
correlation id. -/
theorem c1_amended_lifecycle (requestId : String) (start fin : Int)
    (req : Request) (handler : Request → String → HandlerOutcome)
    (hd : ∀ ev ∈ (handler req requestId).1, ev.event ∉ lifecycleEventTypes) :
    countEvent "REQUEST_RECEIVED"
        (handleRequest requestId start fin req handler).1 = 1 ∧
    countEvent "REQUEST_COMPLETED"
        (handleRequest requestId start fin req handler).1 = 1 ∧
    countEvent "UNHANDLED_ERROR"
        (handleRequest requestId start fin req handler).1 =
      (match (handler req requestId).2 with
       | Except.ok _ => 0
       | Except.error _ => 1) ∧
    (∀ ev ∈ (handleRequest requestId start fin req handler).1,
      ev.event ∈ lifecycleEventTypes → ev.requestId = some requestId) := by
  rcases hh : handler req requestId with ⟨hevs, outcome⟩
  have hd' : ∀ ev ∈ hevs, ev.event ∉ lifecycleEventTypes := by
    intro ev hev
    exact hd ev (by rw [hh]; exact hev)
  have hz1 := countP_eq_zero_of_no_lifecycle hevs "REQUEST_RECEIVED"
    (by simp [lifecycleEventTypes]) hd'
  have hz2 := countP_eq_zero_of_no_lifecycle hevs "REQUEST_COMPLETED"
    (by simp [lifecycleEventTypes]) hd'
  have hz3 := countP_eq_zero_of_no_lifecycle hevs "UNHANDLED_ERROR"
    (by simp [lifecycleEventTypes]) hd'
  unfold handleRequest
  rw [hh]
  cases outcome with
  | ok resp =>
      refine ⟨?_, ?_, ?_, ?_⟩
      · simp [countEvent, List.countP_cons, List.countP_append, hz1]
      · simp [countEvent, List.countP_cons, List.countP_append, hz2]
      · simp [countEvent, List.countP_cons, List.countP_append, hz3]
      · intro ev hev hlife
        simp at hev
        rcases hev with h | h | h
        · rw [h]
        · exact absurd hlife (hd' ev h)
        · rw [h]
  | error fault =>
      refine ⟨?_, ?_, ?_, ?_⟩
      · simp [countEvent, List.countP_cons, List.countP_append, hz1]
      · simp [countEvent, List.countP_cons, List.countP_append, hz2]
      · simp [countEvent, List.countP_cons, List.countP_append, hz3]
      · intro ev hev hlife
        simp at hev
        rcases hev with h | h | h | h
        · rw [h]
        · exact absurd hlife (hd' ev h)
        · rw [h]
        · rw [h]

/-- Witness for the amended C1 on the concrete faulting run. -/
theorem c1_amended_lifecycle_witness :
    countEvent "REQUEST_RECEIVED" malformedJsonRun.1 = 1 ∧
    countEvent "REQUEST_COMPLETED" malformedJsonRun.1 = 1 ∧
    countEvent "UNHANDLED_ERROR" malformedJsonRun.1 = 1 ∧
    (∀ ev ∈ malformedJsonRun.1,
      ev.event ∈ lifecycleEventTypes → ev.requestId = some "req-err-1") :=
  c1_amended_lifecycle "req-err-1" 100 150
    { method := "POST", path := "/users" } malformedJsonHandler
    (by simp [malformedJsonHandler])

/-- Claim C4 counterexample: in the concrete faulting run there is exactly
one `UNHANDLED_ERROR` failure event and it carries no `duration` attribute
(the global error handler of `src/app.js` logs no duration), so the
duration is not present in the failure event. -/
theorem c4_counterexample_failure_event_has_no_duration :
    countEvent "UNHANDLED_ERROR" malformedJsonRun.1 = 1 ∧
    (malformedJsonRun.1.filter (fun e => e.event == "UNHANDLED_ERROR")).all
      (fun e => e.duration == none) = true := by decide

/-- Claim C4, amended: the start timestamp is captured at entry and every
`REQUEST_COMPLETED` event reports `duration = now - start`, which is
non-negative whenever the clock does not step backwards; exactly one such
completion event is emitted per request (also on the fault path, since the
error handler's response finishes), but the `UNHANDLED_ERROR` failure event
itself carries no duration. -/
theorem c4_amended_duration (requestId : String) (start fin : Int)
    (req : Request) (handler : Request → String → HandlerOutcome)
    (hclock : start ≤ fin)
    (hd : ∀ ev ∈ (handler req requestId).1, ev.event ∉ lifecycleEventTypes) :
    countEvent "REQUEST_COMPLETED"
        (handleRequest requestId start fin req handler).1 = 1 ∧
    (∀ ev ∈ (handleRequest requestId start fin req handler).1,
      (ev.event = "REQUEST_COMPLETED" →
        ev.duration = some (fin - start) ∧ 0 ≤ fin - start) ∧
      (ev.event = "UNHANDLED_ERROR" → ev.duration = none)) := by
  rcases hh : handler req requestId with ⟨hevs, outcome⟩
  have hd' : ∀ ev ∈ hevs, ev.event ∉ lifecycleEventTypes := by
    intro ev hev
    exact hd ev (by rw [hh]; exact hev)
  have hz2 := countP_eq_zero_of_no_lifecycle hevs "REQUEST_COMPLETED"
    (by simp [lifecycleEventTypes]) hd'
  have hdur : (0 : Int) ≤ fin - start := by omega
  unfold handleRequest
  rw [hh]
  cases outcome with
  | ok resp =>
      refine ⟨?_, ?_⟩
      · simp [countEvent, List.countP_cons, List.countP_append, hz2]
      · intro ev hev
        simp at hev
        rcases hev with h | h | h
        · subst h
          exact ⟨fun hc => by simp at hc, fun hc => by simp at hc⟩
        · refine ⟨fun hc => ?_, fun hc => ?_⟩
          · exact absurd (by simp [lifecycleEventTypes, hc]) (hd' ev h)
          · exact absurd (by simp [lifecycleEventTypes, hc]) (hd' ev h)
        · subst h
          exact ⟨fun _ => ⟨rfl, hdur⟩, fun hc => by simp at hc⟩
  | error fault =>
      refine ⟨?_, ?_⟩
      · simp [countEvent, List.countP_cons, List.countP_append, hz2]
      · intro ev hev
        simp at hev
        rcases hev with h | h | h | h
        · subst h
          exact ⟨fun hc => by simp at hc, fun hc => by simp at hc⟩
        · refine ⟨fun hc => ?_, fun hc => ?_⟩
          · exact absurd (by simp [lifecycleEventTypes, hc]) (hd' ev h)
          · exact absurd (by simp [lifecycleEventTypes, hc]) (hd' ev h)
        · subst h
          exact ⟨fun hc => by simp at hc, fun _ => rfl⟩
        · subst h
          exact ⟨fun _ => ⟨rfl, hdur⟩, fun hc => by simp at hc⟩

/-- Witness for the amended C4 on the concrete faulting run. -/
theorem c4_amended_duration_witness :
    countEvent "REQUEST_COMPLETED" malformedJsonRun.1 = 1 ∧
    (∀ ev ∈ malformedJsonRun.1,
      (ev.event = "REQUEST_COMPLETED" →
        ev.duration = some (150 - 100) ∧ (0 : Int) ≤ 150 - 100) ∧
      (ev.event = "UNHANDLED_ERROR" → ev.duration = none)) :=
  c4_amended_duration "req-err-1" 100 150
    { method := "POST", path := "/users" } malformedJsonHandler
    (by omega) (by simp [malformedJsonHandler])

/-- A record as the request-logging middleware's `REQUEST_RECEIVED` call
produces it after Winston's default metadata and trace injection: a
`requestId`, the `service` default, and an active trace id. -/
def receivedLogInfo : LogInfo :=
  { level := "info", message := "🌟 New incoming request",
    timestamp := "2024-01-01 00:00:00", event := "REQUEST_RECEIVED",
    meta := [("requestId", JsonVal.str "req-42"),
             ("service", JsonVal.str "nodejs-signoz-service"),
             ("trace_id", JsonVal.str "4bf92f3577b34da6a3ce929d0e0e4736")] }

/-- Claim C2 counterexample: on a concrete record carrying a `requestId`,
the console rendering of the source differs from the rendering the claim
describes, because `prettyLog` does not strip the correlation field —
`requestId` stays in the pretty-printed attribute block. -/
theorem c2_counterexample_requestId_not_stripped :
    prettyLog receivedLogInfo ≠ claimPrettyLog receivedLogInfo := by decide

/-- Claim C2, amended: the console sink renders the single line
`timestamp [level] event_type: message` followed by the pretty-printed
attributes with the trace fields (`trace_id`, `span_id`, `trace_flags`) and
the `service` / duplicate `timestamp` keys removed — but the correlation
field `requestId` is kept; the durable sink receives the full structured
record. -/
theorem c2_amended_console_keeps_requestId (info : LogInfo) (v : JsonVal)
    (h : ("requestId", v) ∈ info.meta) :
    ("requestId", v) ∈ cleanMeta info.meta ∧
    (∀ k, k ∈ strippedKeys → ∀ w, (k, w) ∉ cleanMeta info.meta) ∧
    prettyLog info =
      consoleHeader info ++
        ("\n  " ++ indentNewlines
          (stringifyVal (JsonVal.obj (cleanMeta info.meta)) "")) ∧
    durableSink info = info := by
  have hmem0 : ("requestId", v) ∈ cleanMeta info.meta :=
    List.mem_filter.mpr ⟨h, by simp [strippedKeys]⟩
  refine ⟨hmem0, ?_, ?_, rfl⟩
  · intro k hk w hmem
    have h2 := (List.mem_filter.mp hmem).2
    simp at h2
    exact h2 hk
  · have hne : (cleanMeta info.meta).isEmpty = false := by
      cases hcm : cleanMeta info.meta with
      | nil => rw [hcm] at hmem0; cases hmem0
      | cons a l => rfl
    simp [prettyLog, hne]

/-- Witness for the amended C2 on the concrete record. -/
theorem c2_amended_console_keeps_requestId_witness :
    ("requestId", JsonVal.str "req-42") ∈ cleanMeta receivedLogInfo.meta ∧
    (∀ k, k ∈ strippedKeys → ∀ w, (k, w) ∉ cleanMeta receivedLogInfo.meta) ∧
    prettyLog receivedLogInfo =
      consoleHeader receivedLogInfo ++
        ("\n  " ++ indentNewlines
          (stringifyVal (JsonVal.obj (cleanMeta receivedLogInfo.meta)) "")) ∧
    durableSink receivedLogInfo = receivedLogInfo :=
  c2_amended_console_keeps_requestId receivedLogInfo (JsonVal.str "req-42")
    (by simp [receivedLogInfo])

/-- Lookup after prepending the looked-up key. -/
theorem getKey_cons_self (k : String) (v : JsonVal)
    (l : List (String × JsonVal)) : getKey ((k, v) :: l) k = some v := by
  unfold getKey
  rw [List.find?_cons_of_pos _ (by simp)]

/-- Lookup skips a prefix that does not contain the key. -/
theorem getKey_append_right (m l : List (String × JsonVal)) (k : String)
    (hm : ∀ kv ∈ m, kv.1 ≠ k) : getKey (m ++ l) k = getKey l k := by
  induction m with
  | nil => rfl
  | cons a as ih =>
      have ha : (a.1 == k) = false := by
        simp [hm a (List.mem_cons_self a as)]
      unfold getKey
      rw [List.cons_append, List.find?_cons_of_neg _ (by simp [ha])]
      exact ih (fun kv hkv => hm kv (List.mem_cons_of_mem a hkv))

/-- Lookup misses entirely when the key is absent. -/
theorem getKey_eq_none (m : List (String × JsonVal)) (k : String)
    (hm : ∀ kv ∈ m, kv.1 ≠ k) : getKey m k = none := by
  have hf : m.find? (fun kv => kv.1 == k) = none :=
    List.find?_eq_none.mpr (fun kv hkv => by simp [hm kv hkv])
  unfold getKey
  rw [hf]

/-- Assigning a fresh key appends it. -/
theorem setKey_append_of_not_mem (m : List (String × JsonVal)) (k : String)
    (v : JsonVal) (hm : ∀ kv ∈ m, kv.1 ≠ k) : setKey m k v = m ++ [(k, v)] := by
  have hany : m.any (fun kv => kv.1 == k) = false := by
    rw [List.any_eq_false]
    intro kv hkv
    simp [hm kv hkv]
  simp [setKey, hany]

/-- Claim C5: when a trace context is active at emission, the record
carries `trace_id` and `span_id` describing that span; when none is
active, the injecting format leaves the record untouched and those fields
are absent — never present as empty strings.  The hypotheses say the
caller-supplied attributes do not use the reserved trace keys, which holds
at every `logger.*` call site of `src/app.js`. -/
theorem c5_trace_context_injection (info : LogInfo) (sc : SpanContext)
    (h1 : ∀ kv ∈ info.meta, kv.1 ≠ "trace_id")
    (h2 : ∀ kv ∈ info.meta, kv.1 ≠ "span_id")
    (h3 : ∀ kv ∈ info.meta, kv.1 ≠ "trace_flags") :
    getKey (injectTraceContext (some sc) info).meta "trace_id" =
      some (JsonVal.str sc.traceId) ∧
    getKey (injectTraceContext (some sc) info).meta "span_id" =
      some (JsonVal.str sc.spanId) ∧
    injectTraceContext none info = info ∧
    getKey (injectTraceContext none info).meta "trace_id" = none ∧
    getKey (injectTraceContext none info).meta "span_id" = none := by
  have e1 : setKey info.meta "trace_id" (JsonVal.str sc.traceId) =
      info.meta ++ [("trace_id", JsonVal.str sc.traceId)] :=
    setKey_append_of_not_mem _ _ _ h1
  have h2' : ∀ kv ∈ info.meta ++ [("trace_id", JsonVal.str sc.traceId)],
      kv.1 ≠ "span_id" := by
    intro kv hkv
    rcases List.mem_append.mp hkv with hm | hm
    · exact h2 kv hm
    · simp at hm
      subst hm
      simp
  have e2 : setKey (info.meta ++ [("trace_id", JsonVal.str sc.traceId)])
      "span_id" (JsonVal.str sc.spanId) =
      (info.meta ++ [("trace_id", JsonVal.str sc.traceId)]) ++
        [("span_id", JsonVal.str sc.spanId)] :=
    setKey_append_of_not_mem _ _ _ h2'
  have h3' : ∀ kv ∈ (info.meta ++ [("trace_id", JsonVal.str sc.traceId)]) ++
      [("span_id", JsonVal.str sc.spanId)], kv.1 ≠ "trace_flags" := by
    intro kv hkv
    rcases List.mem_append.mp hkv with hm | hm
    · rcases List.mem_append.mp hm with hm' | hm'
      · exact h3 kv hm'
      · simp at hm'
        subst hm'
        simp
    · simp at hm
      subst hm
      simp
  have e3 : setKey ((info.meta ++ [("trace_id", JsonVal.str sc.traceId)]) ++
      [("span_id", JsonVal.str sc.spanId)]) "trace_flags"
      (JsonVal.str (toHexString sc.traceFlags)) =
      ((info.meta ++ [("trace_id", JsonVal.str sc.traceId)]) ++
        [("span_id", JsonVal.str sc.spanId)]) ++
        [("trace_flags", JsonVal.str (toHexString sc.traceFlags))] :=
    setKey_append_of_not_mem _ _ _ h3'
  have hmeta : (injectTraceContext (some sc) info).meta =
      (info.meta ++ [("trace_id", JsonVal.str sc.traceId)]) ++
        ([("span_id", JsonVal.str sc.spanId)] ++
          [("trace_flags", JsonVal.str (toHexString sc.traceFlags))]) := by
    show setKey (setKey (setKey info.meta "trace_id" _) "span_id" _)
      "trace_flags" _ = _
    rw [e1, e2, e3, List.append_assoc]
  refine ⟨?_, ?_, rfl, ?_, ?_⟩
  · rw [hmeta, List.append_assoc, getKey_append_right _ _ _ h1,
      List.singleton_append]
    exact getKey_cons_self _ _ _
  · rw [hmeta, getKey_append_right _ _ _ h2', List.singleton_append]
    exact getKey_cons_self _ _ _
  · exact getKey_eq_none _ _ h1
  · exact getKey_eq_none _ _ h2

/-- Witness for C5: the `HEALTH_CHECK` record emitted inside an active
span, and the same record with no active span. -/
theorem c5_trace_context_injection_witness :
    getKey (injectTraceContext
        (some { traceId := "4bf92f3577b34da6a3ce929d0e0e4736",
                spanId := "00f067aa0ba902b7", traceFlags := 1 })
        { level := "info", message := "💓 Health check performed",
          timestamp := "2024-01-01 00:00:00", event := "HEALTH_CHECK",
          meta := [("requestId", JsonVal.str "req-7")] }).meta "trace_id" =
      some (JsonVal.str "4bf92f3577b34da6a3ce929d0e0e4736") ∧
    getKey (injectTraceContext
        (some { traceId := "4bf92f3577b34da6a3ce929d0e0e4736",
                spanId := "00f067aa0ba902b7", traceFlags := 1 })
        { level := "info", message := "💓 Health check performed",
          timestamp := "2024-01-01 00:00:00", event := "HEALTH_CHECK",
          meta := [("requestId", JsonVal.str "req-7")] }).meta "span_id" =
      some (JsonVal.str "00f067aa0ba902b7") ∧
    injectTraceContext none
        { level := "info", message := "💓 Health check performed",
          timestamp := "2024-01-01 00:00:00", event := "HEALTH_CHECK",
          meta := [("requestId", JsonVal.str "req-7")] } =
      { level := "info", message := "💓 Health check performed",
        timestamp := "2024-01-01 00:00:00", event := "HEALTH_CHECK",
        meta := [("requestId", JsonVal.str "req-7")] } ∧
    getKey (injectTraceContext none
        { level := "info", message := "💓 Health check performed",
          timestamp := "2024-01-01 00:00:00", event := "HEALTH_CHECK",
          meta := [("requestId", JsonVal.str "req-7")] }).meta "trace_id" =
      none ∧
    getKey (injectTraceContext none
        { level := "info", message := "💓 Health check performed",
          timestamp := "2024-01-01 00:00:00", event := "HEALTH_CHECK",
          meta := [("requestId", JsonVal.str "req-7")] }).meta "span_id" =
      none :=
  c5_trace_context_injection
    { level := "info", message := "💓 Health check performed",
      timestamp := "2024-01-01 00:00:00", event := "HEALTH_CHECK",
      meta := [("requestId", JsonVal.str "req-7")] }
    { traceId := "4bf92f3577b34da6a3ce929d0e0e4736",
      spanId := "00f067aa0ba902b7", traceFlags := 1 }
    (by decide) (by decide) (by decide)

/-- Claim C6: for every emission, a failing durable sink does not prevent
the console sink from rendering the record, `emit` raises nothing back to
its caller, and with a healthy durable sink the full structured record is
delivered.  (The HTTP response is unaffected by construction: the request
pipeline `handleRequest` computes its response without consulting sink
outcomes.) -/
theorem c6_sink_failure_isolated (info : LogInfo) (durableFails : Bool) :
    (emitRecord durableFails info).consoleOutput = some (prettyLog info) ∧
    (emitRecord durableFails info).raised = false ∧
    (emitRecord false info).durableRecord = some info :=
  ⟨rfl, rfl, rfl⟩
